import Mathlib

/-!
Verification of the android-tools repository (src/android_tools.py) against its
natural-language specification.  The Python source is shallowly embedded: pure
helpers become Lean functions; the stateful deployment workflow becomes explicit
state passing over a record of global configuration and a path-set model of the
local filesystem; external commands are modelled by an environment record that
fixes each command exit code and output.  Machine-level details (actual file
contents, network bytes) are outside the claims and are not modelled.
-/

namespace AndroidTools

/-! ## String helpers mirroring Python primitives -/

/-- Python `str.split()` with no argument: split on whitespace runs and drop
empty tokens.  Mirrors `line.strip().split()` in `choose_device`
(src/android_tools.py line 257); the leading `strip()` is redundant for
tokenisation. -/
def pyWords (s : String) : List String :=
  (s.split Char.isWhitespace).filter (fun t => t ≠ "")

/-- Auxiliary for splitting a character list on a separator: returns the chunk
before the first separator and the list of remaining chunks. -/
def splitAux (sep : Char) : List Char → List Char × List (List Char)
  | [] => ([], [])
  | c :: cs =>
    let r := splitAux sep cs
    if c = sep then ([], r.1 :: r.2) else (c :: r.1, r.2)

/-- Split a character list on a separator character (like Python
`str.split(sep)`): always returns at least one (possibly empty) chunk. -/
def splitOnCharList (sep : Char) (l : List Char) : List (List Char) :=
  (splitAux sep l).1 :: (splitAux sep l).2

/-! ## Validators (src/android_tools.py lines 113-128) -/

/-- Helper for `validate_frida_version`: the parts between the dots must be
exactly three, each non-empty and all decimal digits. -/
def validParts : List (List Char) → Bool
  | [a, b, c] =>
    !a.isEmpty && a.all Char.isDigit &&
    !b.isEmpty && b.all Char.isDigit &&
    !c.isEmpty && c.all Char.isDigit
  | _ => false

/-- Embeds `validate_frida_version` (src line 113): Python
`re.match(r'^\d+\.\d+\.\d+$', version)`, modelled over ASCII decimal digits as
three non-empty digit groups separated by two dots. -/
def validate_frida_version (version : String) : Bool :=
  validParts (splitOnCharList '.' version.data)

/-- Embeds `validate_frida_arch` (src line 121): membership in the list of the
four canonical architecture strings. -/
def validate_frida_arch (arch : String) : Bool :=
  arch = "android-arm64" || arch = "android-arm" ||
  arch = "android-x86_64" || arch = "android-x86"

/-- Embeds `map_abi_to_frida_arch` (src line 80): dictionary lookup with
default value `android-arm64`. -/
def map_abi_to_frida_arch (abi : String) : String :=
  if abi = "arm64-v8a" then "android-arm64"
  else if abi = "armeabi-v7a" then "android-arm"
  else if abi = "armeabi" then "android-arm"
  else if abi = "x86_64" then "android-x86_64"
  else if abi = "x86" then "android-x86"
  else "android-arm64"

/-! ## Artifact URL and cache paths (src lines 32-35, 300-301, 688-689) -/

/-- File name of the compressed artifact:
`f"frida-server-{FRIDA_VER}-{FRIDA_ARCH}.xz"` (src lines 301, 689). -/
def localXzName (ver arch : String) : String :=
  "frida-server-" ++ ver ++ "-" ++ arch ++ ".xz"

/-- `LOCAL_XZ = LOCAL_DIR / f"frida-server-..."` with `LOCAL_DIR =
Path("../tmp")` (src line 32); the `resolve()` absolutisation is irrelevant to
path identity and kept relative. -/
def localXzPath (ver arch : String) : String :=
  "../tmp/" ++ localXzName ver arch

/-- `FRIDA_URL` template (src lines 300, 688): the release directory named by
the version, then the same compressed-artifact file name. -/
def fridaUrl (ver arch : String) : String :=
  "https://github.com/frida/frida/releases/download/" ++ ver ++ "/" ++
    localXzName ver arch

/-- `LOCAL_BIN = LOCAL_DIR / "frida-server"` (src line 34): a constant path,
independent of version and architecture. -/
def LOCAL_BIN_path : String := "../tmp/frida-server"

/-- The cache path of the decompressed artifact for a (version, architecture)
pair as the code computes it: the extraction step (src line 328) always writes
to the constant `LOCAL_BIN`, so this function ignores both arguments. -/
def localBinPath (_ver _arch : String) : String := LOCAL_BIN_path

/-! ## Startup (src lines 659-698) -/

/-- The process-wide configuration set by `main` and mutated (or not) by
`setup_frida_server`: `FRIDA_VER`, `FRIDA_ARCH`, `FRIDA_URL`, `LOCAL_XZ`
(src lines 28-33). -/
structure Config where
  FRIDA_VER : String
  FRIDA_ARCH : String
  FRIDA_URL : String
  LOCAL_XZ : String
deriving DecidableEq, Repr

/-- Embeds the pre-menu part of `main` (src lines 664-689).  Returns
`Except.error 1` for `sys.exit(1)`, otherwise the configuration together with
the `AUTO_DETECT_ARCH` flag and `CERT_FILE`. -/
def mainStartup (certFile ver : String) (archOpt : Option String)
    (autoDetectFlag : Bool) : Except Nat (Config × Bool × String) :=
  if !validate_frida_version ver then Except.error 1
  else
    match archOpt with
    | some a =>
      if !validate_frida_arch a then Except.error 1
      else
        Except.ok ({ FRIDA_VER := ver, FRIDA_ARCH := a,
                     FRIDA_URL := fridaUrl ver a,
                     LOCAL_XZ := localXzPath ver a },
                   autoDetectFlag, certFile)
    | none =>
      -- src lines 680-685: default arch, and auto-detect forced on when the
      -- flag was not given explicitly (net effect: always true here).
      let auto := if !autoDetectFlag then true else autoDetectFlag
      Except.ok ({ FRIDA_VER := ver, FRIDA_ARCH := "android-arm64",
                   FRIDA_URL := fridaUrl ver "android-arm64",
                   LOCAL_XZ := localXzPath ver "android-arm64" },
                 auto, certFile)

/-- Observable startup events: a `sys.exit(code)` before the menu, or the menu
being shown (`show_menu`, reached only after validation passes). -/
inductive MainEvent where
  | exited (code : Nat)
  | menuShown
deriving DecidableEq, Repr

/-- The sequence of startup events of `main`: validation failure exits with
code 1 before `show_menu` is called (src lines 667-678, 701). -/
def mainEvents (certFile ver : String) (archOpt : Option String)
    (autoDetectFlag : Bool) : List MainEvent :=
  match mainStartup certFile ver archOpt autoDetectFlag with
  | Except.error n => [MainEvent.exited n]
  | Except.ok _ => [MainEvent.menuShown]

/-! ## Device enumeration and selection (src lines 248-279, `choose_device`) -/

/-- Parses the device list from the lines following the header: a line
contributes its first token when it has at least two tokens and the second
token equals "device" (src lines 255-259). -/
def parseDeviceLines (lines : List String) : List String :=
  lines.filterMap (fun line =>
    match pyWords line with
    | serial :: state :: _ => if state = "device" then some serial else none
    | _ => none)

/-- `choose_device` listing step: `result.stdout.strip().split('\n')[1:]`
then the per-line filter (src lines 252-259). -/
def listDevices (stdout : String) : List String :=
  parseDeviceLines ((stdout.trim.splitOn "\n").drop 1)

/-- The second whitespace token of a line, if any: the state token of a device
bridge listing entry. -/
def lineState (line : String) : Option String := (pyWords line)[1]?

/-- The first whitespace token of a line, if any: the serial of a listing
entry. -/
def lineSerial (line : String) : Option String := (pyWords line).head?

/-- Specification-side reading of the listing (spec section 4.3): the serials,
in original order, of exactly the non-header lines whose state token equals
"device". -/
def listDevicesSpec (stdout : String) : List String :=
  (((stdout.trim.splitOn "\n").drop 1).filter
      (fun l => lineState l = some "device")).map
    (fun l => (lineSerial l).getD "")

/-- Python `choice.isdigit()` followed by `int(choice)`, over ASCII: a value
exactly on non-empty all-digit strings, read as a decimal numeral. -/
def pyToNat? (s : String) : Option Nat :=
  if s.data ≠ [] ∧ s.data.all Char.isDigit then
    some (s.data.foldl (fun n c => n * 10 + (c.toNat - '0'.toNat)) 0)
  else none

/-- `choose_device` selection step (src lines 261-279): empty list returns
early; "0" selects all; an all-digit choice n with 1 <= n <= length selects
the device at 1-based index n; anything else selects nothing. -/
def selectDevices (devices : List String) (choice : String) : List String :=
  if devices.isEmpty then []
  else if choice = "0" then devices
  else
    match pyToNat? choice with
    | some n =>
      if 1 ≤ n ∧ n ≤ devices.length then [devices.getD (n - 1) ""] else []
    | none => []

/-! ## Per-device deployment (src lines 282-377, `setup_frida_server`) -/

/-- Outcome of each external interaction of one device deployment, fixed in
advance: exit codes of the bridge commands, the reported ABI, and whether the
download and the extraction succeed (the Python code turns their failures into
caught exceptions followed by `return`). -/
structure DeviceEnv where
  getpropExit : Nat
  abi : String
  downloadOk : Bool
  extractOk : Bool
  pushExit : Nat
  chmodExit : Nat
  killSuExit : Nat
  killExit : Nat
  setenforceExit : Nat
  rootExit : Nat
  launchSuExit : Nat
  launchPlainExit : Nat
  psExit : Nat
  psOut : String
deriving DecidableEq, Repr

/-- The externally visible steps of `setup_frida_server`, in program order. -/
inductive Step where
  | getprop | download | extract | push | chmodRemote
  | killSu | killPlain | setenforce | rootChannel
  | launchSu | launchPlain | verify
deriving DecidableEq, Repr

/-- How one call of `setup_frida_server` ends: it runs to the end of the
function, it hits one of the early `return` statements (download, extract or
push failure), or an uncaught exception escapes (the ABI query at src line 290
runs with check=True and is inside no try block). -/
inductive Outcome where
  | completed
  | returnedEarly
  | raisedError
deriving DecidableEq, Repr

/-- Mutable process state threaded through the deployment: the global
configuration and the set of local cache files, as a duplicate-free path
list. -/
structure SetupState where
  cfg : Config
  fs : List String
deriving DecidableEq, Repr

/-- Create a file: add the path unless already present (overwriting keeps one
entry). -/
def fsInsert (p : String) (fs : List String) : List String :=
  if p ∈ fs then fs else p :: fs

/-- Delete a file: remove the path. -/
def fsErase (p : String) (fs : List String) : List String :=
  fs.filter (fun q => q ≠ p)

/-- Embeds `setup_frida_server` (src lines 282-377) for one device.  Returns
the state after the call, the trace of executed steps, and the outcome.
Notable source facts mirrored here: the ABI query runs with check=True and can
raise; under auto-detect the device ABI rewrites the global `FRIDA_ARCH`,
`FRIDA_URL` and `LOCAL_XZ`; the download (src line 319) runs unconditionally,
with no check whether the target file already exists; all steps from chmod
onwards run with check=False and never abort; a failing elevated launch falls
back to a plain launch. -/
def setup_frida_server (st : SetupState) (autoDetect : Bool) (env : DeviceEnv) :
    SetupState × List Step × Outcome :=
  if env.getpropExit ≠ 0 then (st, [Step.getprop], Outcome.raisedError)
  else
    let cfg :=
      if autoDetect then
        let arch := map_abi_to_frida_arch env.abi
        { st.cfg with FRIDA_ARCH := arch,
                      FRIDA_URL := fridaUrl st.cfg.FRIDA_VER arch,
                      LOCAL_XZ := localXzPath st.cfg.FRIDA_VER arch }
      else st.cfg
    let tr := [Step.getprop, Step.download]
    if !env.downloadOk then
      ({ cfg := cfg, fs := st.fs }, tr, Outcome.returnedEarly)
    else
      let fs := fsInsert cfg.LOCAL_XZ st.fs
      let tr := tr ++ [Step.extract]
      if !env.extractOk then
        ({ cfg := cfg, fs := fs }, tr, Outcome.returnedEarly)
      else
        let fs := fsInsert LOCAL_BIN_path fs
        let tr := tr ++ [Step.push]
        if env.pushExit ≠ 0 then
          ({ cfg := cfg, fs := fs }, tr, Outcome.returnedEarly)
        else
          let tr := tr ++ [Step.chmodRemote, Step.killSu, Step.killPlain,
                           Step.setenforce, Step.rootChannel, Step.launchSu]
          let tr := if env.launchSuExit ≠ 0 then tr ++ [Step.launchPlain] else tr
          let tr := tr ++ [Step.verify]
          ({ cfg := cfg, fs := fs }, tr, Outcome.completed)

/-- The configuration value `setup_frida_server` leaves in the globals when
the ABI query succeeds: under auto-detect the architecture, URL and compressed
path are recomputed from the device ABI (src lines 295-301), otherwise the
configuration is untouched.  Used to state lemmas about the driver. -/
def setupCfg (st : SetupState) (autoDetect : Bool) (env : DeviceEnv) : Config :=
  if autoDetect then
    { st.cfg with
        FRIDA_ARCH := map_abi_to_frida_arch env.abi,
        FRIDA_URL := fridaUrl st.cfg.FRIDA_VER (map_abi_to_frida_arch env.abi),
        LOCAL_XZ := localXzPath st.cfg.FRIDA_VER (map_abi_to_frida_arch env.abi) }
  else st.cfg

/-- Embeds the device loop of `run_frida_server` (src lines 394-397): devices
are processed in order; an uncaught exception from `setup_frida_server`
propagates and ends the loop (the surviving traces are those of the attempted
devices); the trailing frida-ps listing runs with check=False and cannot
abort, so it is omitted.  Returns the final state, the per-device traces, and
whether an exception aborted the loop. -/
def run_frida_server (st : SetupState) (autoDetect : Bool) :
    List DeviceEnv → SetupState × List (List Step) × Bool
  | [] => (st, [], false)
  | env :: rest =>
    let r := setup_frida_server st autoDetect env
    match r.2.2 with
    | Outcome.raisedError => (r.1, [r.2.1], true)
    | _ =>
      let rr := run_frida_server r.1 autoDetect rest
      (rr.1, r.2.1 :: rr.2.1, rr.2.2)

/-! ## Certificate push (src lines 169-243, `push_burp_cert`) -/

/-- Fixed outcomes of the external interactions of `push_burp_cert`: tool
presence, certificate presence, the exit code of each openssl/adb invocation
run inside the try block, the stdout of the subject-hash command, and whether
a failing openssl conversion still leaves a (partial) output file behind. -/
structure CertEnv where
  adbPresent : Bool
  opensslPresent : Bool
  certExists : Bool
  derExit : Nat
  derLeftover : Bool
  pemExit : Nat
  pemLeftover : Bool
  hashExit : Nat
  hashOut : String
  pushExit : Nat
  chmodExit : Nat
  rebootExit : Nat
deriving DecidableEq, Repr

/-- The externally visible steps of `push_burp_cert`, in program order. -/
inductive CertStep where
  | derConv | pemConv | hashCmd | adbRoot | remount | pushCert
  | chmodCert | reboot
deriving DecidableEq, Repr

/-- How `push_burp_cert` ends: early return at a tool check, early return at
the certificate check, the except-handler caught an exception, or the happy
path ran to the end. -/
inductive CertOutcome where
  | toolMissing
  | certMissing
  | errorCaught
  | done
deriving DecidableEq, Repr

/-- The hash-named file: `f"{hash_value}.0"` where `hash_value =
result.stdout.strip().split('\n')[0]` (src lines 209-210). -/
def hashName (env : CertEnv) : String :=
  ((env.hashOut.trim.splitOn "\n").headD "") ++ ".0"

/-- The cleanup run by the except handler (src lines 240-243): unlink
`temp.pem` if it exists, and the hash-named file if `hash_name` was already
assigned (`'hash_name' in locals()`) and the file exists. -/
def certCleanup (env : CertEnv) (hashKnown : Bool) (fs : List String) :
    List String :=
  let fs1 := fsErase "temp.pem" fs
  if hashKnown then fsErase (hashName env) fs1 else fs1

/-- The tail of `push_burp_cert` after the conversion to PEM succeeded
(src lines 205-236): hash command (check=True), rename to the hash name,
best-effort root/remount, push and chmod (check=True), explicit unlink of the
hash file, reboot (check=True).  A check=True failure raises; the except
handler (src lines 238-243) cleans up and the function returns normally. -/
def certAfterConvert (env : CertEnv) (fs : List String) (tr : List CertStep) :
    List String × CertOutcome × List CertStep :=
  let tr := tr ++ [CertStep.hashCmd]
  if env.hashExit ≠ 0 then (certCleanup env false fs, CertOutcome.errorCaught, tr)
  else
    -- hash_name assigned, then temp.pem renamed to it (src lines 210-214)
    let fs := fsInsert (hashName env) (fsErase "temp.pem" fs)
    let tr := tr ++ [CertStep.adbRoot, CertStep.remount, CertStep.pushCert]
    if env.pushExit ≠ 0 then (certCleanup env true fs, CertOutcome.errorCaught, tr)
    else
      let tr := tr ++ [CertStep.chmodCert]
      if env.chmodExit ≠ 0 then
        (certCleanup env true fs, CertOutcome.errorCaught, tr)
      else
        -- explicit success-path cleanup (src lines 230-231)
        let fs := fsErase (hashName env) fs
        let tr := tr ++ [CertStep.reboot]
        if env.rebootExit ≠ 0 then
          (certCleanup env true fs, CertOutcome.errorCaught, tr)
        else (fs, CertOutcome.done, tr)

/-- Embeds `push_burp_cert` (src lines 169-243) over a path-set filesystem.
The DER conversion runs with check=False; the PEM fallback runs with
check=True exactly when the DER conversion exited non-zero; a successful
conversion creates `temp.pem`, a failing one leaves it behind only when the
corresponding leftover flag is set (covering both behaviours of openssl). -/
def push_burp_cert (env : CertEnv) (fs : List String) :
    List String × CertOutcome × List CertStep :=
  if !env.adbPresent then (fs, CertOutcome.toolMissing, [])
  else if !env.opensslPresent then (fs, CertOutcome.toolMissing, [])
  else if !env.certExists then (fs, CertOutcome.certMissing, [])
  else
    let fs := if env.derExit = 0 || env.derLeftover
              then fsInsert "temp.pem" fs else fs
    let tr := [CertStep.derConv]
    if env.derExit ≠ 0 then
      let fs := if env.pemExit = 0 || env.pemLeftover
                then fsInsert "temp.pem" fs else fs
      let tr := tr ++ [CertStep.pemConv]
      if env.pemExit ≠ 0 then (certCleanup env false fs, CertOutcome.errorCaught, tr)
      else certAfterConvert env fs tr
    else certAfterConvert env fs tr

/-- Independent reading of the regex `^\d+\.\d+\.\d+$` (over ASCII digits):
three non-empty digit groups separated by literal dots, spanning the whole
string. -/
def versionShape (s : String) : Prop :=
  ∃ a b c : List Char, s.data = a ++ '.' :: (b ++ '.' :: c) ∧
    a ≠ [] ∧ b ≠ [] ∧ c ≠ [] ∧
    (∀ ch ∈ a, ch.isDigit = true) ∧ (∀ ch ∈ b, ch.isDigit = true) ∧
    (∀ ch ∈ c, ch.isDigit = true)

/-! ## Concrete fixtures -/

/-- The default configuration after startup with no explicit architecture. -/
def cfg0 : Config :=
  { FRIDA_VER := "17.5.2", FRIDA_ARCH := "android-arm64",
    FRIDA_URL := fridaUrl "17.5.2" "android-arm64",
    LOCAL_XZ := localXzPath "17.5.2" "android-arm64" }

/-- A device interaction in which every external step succeeds. -/
def envOk : DeviceEnv :=
  { getpropExit := 0, abi := "arm64-v8a", downloadOk := true,
    extractOk := true, pushExit := 0, chmodExit := 0, killSuExit := 0,
    killExit := 0, setenforceExit := 0, rootExit := 0, launchSuExit := 0,
    launchPlainExit := 0, psExit := 0, psOut := "frida-server" }

/-- Like `envOk` but the ABI query command exits non-zero. -/
def envGetpropFail : DeviceEnv := { envOk with getpropExit := 1 }

/-- Like `envOk` but the artifact download fails. -/
def envDownloadFail : DeviceEnv := { envOk with downloadOk := false }

/-- Like `envOk` but the device reports an x86 ABI. -/
def envX86 : DeviceEnv := { envOk with abi := "x86" }

/-- Like `envOk` but KillPrior (both variants), RelaxMAC and
RequestRootChannel all exit non-zero, and the elevated launch fails too. -/
def envBestEffortFail : DeviceEnv :=
  { envOk with killSuExit := 1, killExit := 1, setenforceExit := 1,
               rootExit := 1, launchSuExit := 1 }

/-- A state whose local cache is pre-populated with both the compressed and
the decompressed artifact for (17.5.2, android-arm64). -/
def stPre : SetupState :=
  { cfg := cfg0,
    fs := [localXzPath "17.5.2" "android-arm64", LOCAL_BIN_path] }

/-- A certificate-push interaction where every command succeeds except the
subject-hash command: the failure is thrown after `temp.pem` is created and
before the hash-rename step. -/
def envHashFail : CertEnv :=
  { adbPresent := true, opensslPresent := true, certExists := true,
    derExit := 0, derLeftover := false, pemExit := 0, pemLeftover := false,
    hashExit := 1, hashOut := "9a5ba575", pushExit := 0, chmodExit := 0,
    rebootExit := 0 }

/-- A certificate-push interaction where the DER conversion fails and the PEM
fallback fails as well. -/
def envPemFail : CertEnv :=
  { adbPresent := true, opensslPresent := true, certExists := true,
    derExit := 1, derLeftover := true, pemExit := 1, pemLeftover := false,
    hashExit := 0, hashOut := "9a5ba575", pushExit := 0, chmodExit := 0,
    rebootExit := 0 }

/-! ## Helper lemmas -/

theorem splitAux_glue (sep : Char) (l : List Char) :
    l = (splitAux sep l).1 ++
        (((splitAux sep l).2).map (fun q => sep :: q)).flatten := by
  induction l with
  | nil => rfl
  | cons c cs ih =>
    by_cases h : c = sep
    · subst h
      simp only [splitAux, if_pos rfl, List.map_cons, List.flatten_cons,
        List.nil_append, List.cons_append]
      exact congrArg (c :: ·) ih
    · simp only [splitAux, if_neg h, List.cons_append]
      exact congrArg (c :: ·) ih

theorem splitAux_of_not_mem {sep : Char} {l : List Char} (h : sep ∉ l) :
    splitAux sep l = (l, []) := by
  induction l with
  | nil => rfl
  | cons c cs ih =>
    have hc : ¬ c = sep := fun e => h (e ▸ List.mem_cons_self c cs)
    have hcs : sep ∉ cs := fun m => h (List.mem_cons_of_mem _ m)
    simp [splitAux, if_neg hc, ih hcs]

theorem splitAux_append {sep : Char} {l : List Char} (h : sep ∉ l)
    (r : List Char) :
    splitAux sep (l ++ sep :: r) =
      (l, (splitAux sep r).1 :: (splitAux sep r).2) := by
  induction l with
  | nil => simp [splitAux]
  | cons c cs ih =>
    have hc : ¬ c = sep := fun e => h (e ▸ List.mem_cons_self c cs)
    have hcs : sep ∉ cs := fun m => h (List.mem_cons_of_mem _ m)
    simp [splitAux, if_neg hc, ih hcs]

theorem ne_nil_of_isEmpty_false {α : Type} {l : List α}
    (h : l.isEmpty = false) : l ≠ [] := by
  intro e; subst e; simp at h

theorem isEmpty_false_of_ne_nil {α : Type} {l : List α}
    (h : l ≠ []) : l.isEmpty = false := by
  cases l with
  | nil => exact absurd rfl h
  | cons x xs => rfl

theorem validate_frida_version_iff (s : String) :
    validate_frida_version s = true ↔ versionShape s := by
  constructor
  · intro h
    unfold validate_frida_version splitOnCharList at h
    rcases e2 : (splitAux '.' s.data).2 with _ | ⟨b, _ | ⟨c, _ | ⟨d, rest⟩⟩⟩ <;>
      rw [e2] at h <;> simp only [validParts] at h
    · exact absurd h (by simp)
    · exact absurd h (by simp)
    · simp only [Bool.and_eq_true, Bool.not_eq_true', List.all_eq_true] at h
      obtain ⟨⟨⟨⟨⟨ea, da⟩, eb⟩, db⟩, ec⟩, dc⟩ := h
      refine ⟨(splitAux '.' s.data).1, b, c, ?_,
        ne_nil_of_isEmpty_false ea, ne_nil_of_isEmpty_false eb,
        ne_nil_of_isEmpty_false ec, da, db, dc⟩
      have hg := splitAux_glue '.' s.data
      rw [e2] at hg
      simpa using hg
    · exact absurd h (by simp)
  · rintro ⟨a, b, c, hs, ha, hb, hc, da, db, dc⟩
    have na : '.' ∉ a := fun m => absurd (da '.' m) (by decide)
    have nb : '.' ∉ b := fun m => absurd (db '.' m) (by decide)
    have nc : '.' ∉ c := fun m => absurd (dc '.' m) (by decide)
    unfold validate_frida_version splitOnCharList
    rw [hs, splitAux_append na, splitAux_append nb, splitAux_of_not_mem nc]
    simp only [validParts, Bool.and_eq_true, Bool.not_eq_true',
      isEmpty_false_of_ne_nil ha, isEmpty_false_of_ne_nil hb,
      isEmpty_false_of_ne_nil hc, List.all_eq_true, true_and, and_true]
    exact ⟨⟨da, db⟩, dc⟩

theorem append_sep_cancel {sep : Char} :
    ∀ {l1 l2 r1 r2 : List Char}, sep ∉ l1 → sep ∉ l2 →
      l1 ++ sep :: r1 = l2 ++ sep :: r2 → l1 = l2 ∧ r1 = r2 := by
  intro l1
  induction l1 with
  | nil =>
    intro l2 r1 r2 _ h2 h
    cases l2 with
    | nil => simpa using h
    | cons b bs =>
      exfalso
      simp only [List.nil_append, List.cons_append, List.cons.injEq] at h
      exact h2 (h.1 ▸ List.mem_cons_self b bs)
  | cons a as ih =>
    intro l2 r1 r2 h1 h2 h
    cases l2 with
    | nil =>
      exfalso
      simp only [List.nil_append, List.cons_append, List.cons.injEq] at h
      exact h1 (h.1.symm ▸ List.mem_cons_self a as)
    | cons b bs =>
      simp only [List.cons_append, List.cons.injEq] at h
      have h1' : sep ∉ as := fun m => h1 (List.mem_cons_of_mem _ m)
      have h2' : sep ∉ bs := fun m => h2 (List.mem_cons_of_mem _ m)
      obtain ⟨he, ht⟩ := ih h1' h2' h.2
      exact ⟨by rw [h.1, he], ht⟩

theorem version_chars {v : String} (h : validate_frida_version v = true) :
    ∀ ch ∈ v.data, ch.isDigit = true ∨ ch = '.' := by
  obtain ⟨a, b, c, hs, _, _, _, da, db, dc⟩ := (validate_frida_version_iff v).1 h
  intro ch hm
  rw [hs] at hm
  simp only [List.mem_append, List.mem_cons] at hm
  rcases hm with hm | hm | hm | hm | hm
  · exact Or.inl (da ch hm)
  · exact Or.inr hm
  · exact Or.inl (db ch hm)
  · exact Or.inr hm
  · exact Or.inl (dc ch hm)

theorem version_no_char {v : String} (h : validate_frida_version v = true)
    {c : Char} (hd : c.isDigit = false) (hne : c ≠ '.') : c ∉ v.data := by
  intro m
  rcases version_chars h c m with hc | hc
  · rw [hd] at hc; exact Bool.false_ne_true hc
  · exact hne hc

theorem string_ext {s t : String} (h : s.data = t.data) : s = t := by
  cases s; cases t; exact congrArg String.mk h

theorem localXzName_inj {v1 a1 v2 a2 : String}
    (h1 : validate_frida_version v1 = true)
    (h2 : validate_frida_version v2 = true)
    (h : localXzName v1 a1 = localXzName v2 a2) : v1 = v2 ∧ a1 = a2 := by
  have hd := congrArg String.data h
  simp only [localXzName, String.data_append, List.append_assoc,
    show ("-" : String).data = ['-'] from rfl, List.singleton_append] at hd
  have hd' := List.append_cancel_left hd
  have n1 : '-' ∉ v1.data := version_no_char h1 (by decide) (by decide)
  have n2 : '-' ∉ v2.data := version_no_char h2 (by decide) (by decide)
  obtain ⟨hv, hr⟩ := append_sep_cancel n1 n2 hd'
  exact ⟨string_ext hv, string_ext (List.append_cancel_right hr)⟩

theorem localXzPath_inj {v1 a1 v2 a2 : String}
    (h1 : validate_frida_version v1 = true)
    (h2 : validate_frida_version v2 = true)
    (h : localXzPath v1 a1 = localXzPath v2 a2) : v1 = v2 ∧ a1 = a2 := by
  apply localXzName_inj h1 h2
  apply string_ext
  have hd := congrArg String.data h
  simp only [localXzPath, String.data_append] at hd
  exact List.append_cancel_left hd

theorem fridaUrl_inj {v1 a1 v2 a2 : String}
    (h1 : validate_frida_version v1 = true)
    (h2 : validate_frida_version v2 = true)
    (h : fridaUrl v1 a1 = fridaUrl v2 a2) : v1 = v2 ∧ a1 = a2 := by
  have hd := congrArg String.data h
  simp only [fridaUrl, String.data_append, List.append_assoc,
    show ("/" : String).data = ['/'] from rfl, List.singleton_append] at hd
  have hd' := List.append_cancel_left hd
  have n1 : '/' ∉ v1.data := version_no_char h1 (by decide) (by decide)
  have n2 : '/' ∉ v2.data := version_no_char h2 (by decide) (by decide)
  obtain ⟨hv, hr⟩ := append_sep_cancel n1 n2 hd'
  have hv' : v1 = v2 := string_ext hv
  subst hv'
  have hname : localXzName v1 a1 = localXzName v1 a2 :=
    string_ext (by
      simpa [localXzName, String.data_append, List.append_assoc,
        show ("-" : String).data = ['-'] from rfl, List.singleton_append]
        using hr)
  exact ⟨rfl, (localXzName_inj h1 h1 hname).2⟩

theorem parseDeviceLines_eq (lines : List String) :
    parseDeviceLines lines =
      (lines.filter (fun l => lineState l = some "device")).map
        (fun l => (lineSerial l).getD "") := by
  induction lines with
  | nil => rfl
  | cons line rest ih =>
    rcases e : pyWords line with _ | ⟨x, _ | ⟨y, tail⟩⟩
    · simp [parseDeviceLines, lineState, lineSerial, e, List.filter_cons,
        List.map_cons] at ih ⊢
      simpa [parseDeviceLines] using ih
    · simp [parseDeviceLines, lineState, lineSerial, e, List.filter_cons] at ih ⊢
      simpa [parseDeviceLines] using ih
    · by_cases hy : y = "device"
      · subst hy
        simp [parseDeviceLines, lineState, lineSerial, e, List.filter_cons,
          List.filterMap_cons] at ih ⊢
        simpa [parseDeviceLines] using ih
      · simp [parseDeviceLines, lineState, lineSerial, e, List.filter_cons,
          List.filterMap_cons, hy] at ih ⊢
        simpa [parseDeviceLines] using ih

theorem mem_fsInsert (q p : String) (fs : List String) :
    q ∈ fsInsert p fs ↔ q = p ∨ q ∈ fs := by
  unfold fsInsert
  split
  · constructor
    · exact Or.inr
    · rintro (rfl | hq)
      · assumption
      · exact hq
  · simp [List.mem_cons]

theorem mem_fsErase (q p : String) (fs : List String) :
    q ∈ fsErase p fs ↔ q ∈ fs ∧ q ≠ p := by
  simp [fsErase, List.mem_filter]

theorem fsInsert_of_mem {p : String} {fs : List String} (h : p ∈ fs) :
    fsInsert p fs = fs := by
  simp [fsInsert, h]

theorem mem_fsInsert_self (p : String) (fs : List String) :
    p ∈ fsInsert p fs := by
  simp [mem_fsInsert]

/-! ## Claim theorems -/

/-- C7: the architecture resolver maps arm64-v8a to android-arm64, armeabi-v7a
and armeabi to android-arm, x86_64 to android-x86_64, x86 to android-x86, and
every other string to the default android-arm64, never an error. -/
theorem map_abi_to_frida_arch_spec :
    map_abi_to_frida_arch "arm64-v8a" = "android-arm64" ∧
    map_abi_to_frida_arch "armeabi-v7a" = "android-arm" ∧
    map_abi_to_frida_arch "armeabi" = "android-arm" ∧
    map_abi_to_frida_arch "x86_64" = "android-x86_64" ∧
    map_abi_to_frida_arch "x86" = "android-x86" ∧
    ∀ s : String,
      s ∉ (["arm64-v8a", "armeabi-v7a", "armeabi", "x86_64", "x86"] :
            List String) →
      map_abi_to_frida_arch s = "android-arm64" := by
  refine ⟨rfl, rfl, rfl, rfl, rfl, ?_⟩
  intro s hs
  simp only [List.mem_cons, List.not_mem_nil, or_false, not_or] at hs
  obtain ⟨n1, n2, n3, n4, n5⟩ := hs
  unfold map_abi_to_frida_arch
  rw [if_neg n1, if_neg n2, if_neg n3, if_neg n4, if_neg n5]

/-- C7 witness: an unrecognized ABI string resolves to the default. -/
theorem map_abi_to_frida_arch_spec_witness :
    map_abi_to_frida_arch "mips" = "android-arm64" :=
  map_abi_to_frida_arch_spec.2.2.2.2.2 "mips" (by decide)

/-- C9: the version validator accepts exactly the strings of shape
digits.digits.digits (accepting 17.5.2; rejecting 17.5, 17.5.2.1, abc); the
architecture validator accepts exactly the four canonical strings; when either
startup validation fails, the process exits with code 1 and the menu is never
shown. -/
theorem startup_validation_spec :
    (∀ s : String, validate_frida_version s = true ↔ versionShape s) ∧
    validate_frida_version "17.5.2" = true ∧
    validate_frida_version "17.5" = false ∧
    validate_frida_version "17.5.2.1" = false ∧
    validate_frida_version "abc" = false ∧
    (∀ a : String, validate_frida_arch a = true ↔
      (a = "android-arm64" ∨ a = "android-arm" ∨ a = "android-x86_64" ∨
       a = "android-x86")) ∧
    (∀ (cf v : String) (ao : Option String) (ad : Bool),
      validate_frida_version v = false →
      mainEvents cf v ao ad = [MainEvent.exited 1] ∧
      MainEvent.menuShown ∉ mainEvents cf v ao ad) ∧
    (∀ (cf v a : String) (ad : Bool),
      validate_frida_version v = true → validate_frida_arch a = false →
      mainEvents cf v (some a) ad = [MainEvent.exited 1] ∧
      MainEvent.menuShown ∉ mainEvents cf v (some a) ad) := by
  refine ⟨validate_frida_version_iff, by decide, by decide, by decide,
    by decide, ?_, ?_, ?_⟩
  · intro a
    simp [validate_frida_arch, or_assoc]
  · intro cf v ao ad h
    simp [mainEvents, mainStartup, h]
  · intro cf v a ad hv ha
    simp [mainEvents, mainStartup, hv, ha]

/-- C9 witness: a malformed version and a non-canonical architecture each exit
with code 1 before the menu. -/
theorem startup_validation_spec_witness :
    (mainEvents "./burp.cer" "abc" none false = [MainEvent.exited 1] ∧
      MainEvent.menuShown ∉ mainEvents "./burp.cer" "abc" none false) ∧
    (mainEvents "./burp.cer" "17.5.2" (some "arm64") true =
        [MainEvent.exited 1] ∧
      MainEvent.menuShown ∉
        mainEvents "./burp.cer" "17.5.2" (some "arm64") true) :=
  ⟨startup_validation_spec.2.2.2.2.2.2.1 "./burp.cer" "abc" none false
      (by decide),
   startup_validation_spec.2.2.2.2.2.2.2 "./burp.cer" "17.5.2" "arm64" true
      (by decide) (by decide)⟩

/-- C6: the device listing is exactly the serials of the non-header lines
whose state token equals "device", in original order; choice "0" selects all
listed devices in that order; an all-digit choice between 1 and the list
length selects the device at that 1-based index; any other choice yields an
empty selection. -/
theorem choose_device_spec :
    (∀ stdout : String, listDevices stdout = listDevicesSpec stdout) ∧
    (∀ ds : List String, selectDevices ds "0" = ds) ∧
    (∀ (ds : List String) (choice : String) (n : Nat),
      pyToNat? choice = some n → 1 ≤ n → n ≤ ds.length →
      selectDevices ds choice = [ds.getD (n - 1) ""]) ∧
    (∀ (ds : List String) (choice : String), choice ≠ "0" →
      (∀ n : Nat, pyToNat? choice = some n → n = 0 ∨ ds.length < n) →
      selectDevices ds choice = []) := by
  refine ⟨?_, ?_, ?_, ?_⟩
  · intro stdout
    unfold listDevices listDevicesSpec
    exact parseDeviceLines_eq _
  · intro ds
    cases ds with
    | nil => rfl
    | cons d ds => simp [selectDevices]
  · intro ds choice n ht h1 hn
    have hne : ds ≠ [] := by
      intro e; subst e; simp at hn; omega
    have hc0 : choice ≠ "0" := by
      intro e; subst e
      rw [show pyToNat? "0" = some 0 from rfl] at ht
      injection ht with ht'; omega
    unfold selectDevices
    rw [if_neg (by simp [isEmpty_false_of_ne_nil hne]), if_neg hc0, ht]
    show (if 1 ≤ n ∧ n ≤ ds.length then [ds.getD (n - 1) ""] else []) =
      [ds.getD (n - 1) ""]
    rw [if_pos ⟨h1, hn⟩]
  · intro ds choice hc0 hbad
    unfold selectDevices
    by_cases he : ds.isEmpty
    · rw [if_pos he]
    · rw [if_neg he, if_neg hc0]
      cases ht : pyToNat? choice with
      | none => rfl
      | some n =>
        show (if 1 ≤ n ∧ n ≤ ds.length then [ds.getD (n - 1) ""] else []) = []
        rcases hbad n ht with h | h
        · rw [if_neg (by omega)]
        · rw [if_neg (by omega)]

/-- C6 witness: with three devices listed, choice "0" selects all three in
order, choice "2" selects the second, and choice "5" selects nothing; the
listing keeps exactly the entries in state "device". -/
theorem choose_device_spec_witness :
    listDevices "List of devices attached\nemulator-5554\tdevice\nR58N\toffline\n" =
      listDevicesSpec "List of devices attached\nemulator-5554\tdevice\nR58N\toffline\n" ∧
    selectDevices ["emulator-5554", "R58N", "pixel"] "0" =
      ["emulator-5554", "R58N", "pixel"] ∧
    selectDevices ["emulator-5554", "R58N", "pixel"] "2" =
      [(["emulator-5554", "R58N", "pixel"] : List String).getD (2 - 1) ""] ∧
    selectDevices ["emulator-5554", "R58N", "pixel"] "5" = [] :=
  ⟨choose_device_spec.1 _,
   choose_device_spec.2.1 _,
   choose_device_spec.2.2.1 _ "2" 2 rfl (by decide) (by decide),
   choose_device_spec.2.2.2 _ "5" (by decide) (by
     intro n hn
     rw [show pyToNat? "5" = some 5 from rfl] at hn
     injection hn with hn'
     subst hn'
     decide)⟩

theorem mem_ite_fsInsert {c : Prop} [Decidable c] {p q : String}
    {Y : List String} (h : q ∈ (if c then fsInsert p Y else Y)) :
    q = p ∨ q ∈ Y := by
  split at h
  · exact (mem_fsInsert _ _ _).1 h
  · exact Or.inr h

theorem certAfterConvert_clean (env : CertEnv) (fs : List String)
    (tr : List CertStep)
    (h : hashName env ∈ fs → hashName env = "temp.pem") :
    "temp.pem" ∉ (certAfterConvert env fs tr).1 ∧
    hashName env ∉ (certAfterConvert env fs tr).1 := by
  unfold certAfterConvert certCleanup
  by_cases hh : env.hashExit = 0
  · rw [if_neg (by omega)]
    by_cases hp : env.pushExit = 0
    · rw [if_neg (by omega)]
      by_cases hcm : env.chmodExit = 0
      · rw [if_neg (by omega)]
        by_cases hrb : env.rebootExit = 0
        · rw [if_neg (by omega)]
          simp [mem_fsErase, mem_fsInsert]
        · rw [if_pos (by omega)]
          simp [mem_fsErase, mem_fsInsert]
      · rw [if_pos (by omega)]
        simp [mem_fsErase, mem_fsInsert]
    · rw [if_pos (by omega)]
      simp [mem_fsErase, mem_fsInsert]
  · rw [if_pos (by omega)]
    constructor
    · intro hmem
      exact ((mem_fsErase _ _ _).1 (by simpa using hmem)).2 rfl
    · intro hmem
      have hm := (mem_fsErase _ _ _).1 (by simpa using hmem)
      exact hm.2 (h hm.1)

/-- C4: after every run of the certificate-push operation, neither the
temporary PEM file nor the hash-named copy exists on disk, on the success path
and on every caught-exception path, in particular when a failure is thrown
after the temporary PEM file is created but before the hash-rename step. -/
theorem cert_temp_files_cleaned (env : CertEnv) (fs : List String)
    (h1 : "temp.pem" ∉ fs) (h2 : hashName env ∉ fs) :
    "temp.pem" ∉ (push_burp_cert env fs).1 ∧
    hashName env ∉ (push_burp_cert env fs).1 := by
  unfold push_burp_cert
  by_cases hadb : env.adbPresent <;> by_cases hssl : env.opensslPresent <;>
    by_cases hcert : env.certExists <;>
    simp only [hadb, hssl, hcert, Bool.not_true, Bool.not_false, if_true,
      if_false, Bool.false_eq_true, Bool.true_eq_false]
  case pos =>
    by_cases hder : env.derExit = 0
    · rw [if_neg (by omega)]
      apply certAfterConvert_clean
      intro hm
      rcases mem_ite_fsInsert hm with he | hmem
      · exact he
      · exact absurd hmem h2
    · rw [if_pos (by omega)]
      by_cases hpem : env.pemExit = 0
      · rw [if_neg (by omega)]
        apply certAfterConvert_clean
        intro hm
        rcases mem_ite_fsInsert hm with he | hm2
        · exact he
        rcases mem_ite_fsInsert hm2 with he | hm3
        · exact he
        · exact absurd hm3 h2
      · rw [if_pos (by omega)]
        unfold certCleanup
        constructor
        · intro hmem
          exact ((mem_fsErase _ _ _).1 (by simpa using hmem)).2 rfl
        · intro hmem
          have hm := (mem_fsErase _ _ _).1 (by simpa using hmem)
          refine hm.2 ?_
          rcases mem_ite_fsInsert hm.1 with he | hm2
          · exact he
          rcases mem_ite_fsInsert hm2 with he | hm3
          · exact he
          · exact absurd hm3 h2
  all_goals exact ⟨h1, h2⟩

/-- C4 witness: with the subject-hash command failing after `temp.pem` was
created, neither temp file survives the operation. -/
theorem cert_temp_files_cleaned_witness :
    "temp.pem" ∉ (push_burp_cert envHashFail []).1 ∧
    hashName envHashFail ∉ (push_burp_cert envHashFail []).1 :=
  cert_temp_files_cleaned envHashFail [] (by decide) (by decide)

/-- C10: the conversion tries DER format first; the PEM conversion runs if and
only if the DER attempt exits non-zero; and when that PEM fallback fails too,
the operation is aborted by the exception handler before the hash and push
steps. -/
theorem certAfterConvert_trace (env : CertEnv) (fs : List String)
    (tr : List CertStep) :
    ∃ t, (certAfterConvert env fs tr).2.2 = tr ++ t ∧
      CertStep.pemConv ∉ t ∧ CertStep.derConv ∉ t := by
  unfold certAfterConvert
  by_cases hh : env.hashExit = 0
  · rw [if_neg (by omega)]
    by_cases hp : env.pushExit = 0
    · rw [if_neg (by omega)]
      by_cases hcm : env.chmodExit = 0
      · rw [if_neg (by omega)]
        by_cases hrb : env.rebootExit = 0
        · rw [if_neg (by omega)]
          exact ⟨[CertStep.hashCmd, CertStep.adbRoot, CertStep.remount,
            CertStep.pushCert, CertStep.chmodCert, CertStep.reboot],
            by simp, by decide, by decide⟩
        · rw [if_pos (by omega)]
          exact ⟨[CertStep.hashCmd, CertStep.adbRoot, CertStep.remount,
            CertStep.pushCert, CertStep.chmodCert, CertStep.reboot],
            by simp, by decide, by decide⟩
      · rw [if_pos (by omega)]
        exact ⟨[CertStep.hashCmd, CertStep.adbRoot, CertStep.remount,
          CertStep.pushCert, CertStep.chmodCert],
          by simp, by decide, by decide⟩
    · rw [if_pos (by omega)]
      exact ⟨[CertStep.hashCmd, CertStep.adbRoot, CertStep.remount,
        CertStep.pushCert], by simp, by decide, by decide⟩
  · rw [if_pos (by omega)]
    exact ⟨[CertStep.hashCmd], by simp, by decide, by decide⟩

/-- C10: the conversion tries DER format first; the PEM conversion runs if and
only if the DER attempt exits non-zero; and when that PEM fallback fails too,
the operation is aborted by the exception handler before the hash and push
steps. -/
theorem cert_conversion_der_first (env : CertEnv) (fs : List String)
    (ha : env.adbPresent = true) (ho : env.opensslPresent = true)
    (hc : env.certExists = true) :
    CertStep.derConv ∈ (push_burp_cert env fs).2.2 ∧
    (CertStep.pemConv ∈ (push_burp_cert env fs).2.2 ↔ env.derExit ≠ 0) ∧
    (env.derExit ≠ 0 → env.pemExit ≠ 0 →
      (push_burp_cert env fs).2.1 = CertOutcome.errorCaught ∧
      CertStep.hashCmd ∉ (push_burp_cert env fs).2.2 ∧
      CertStep.pushCert ∉ (push_burp_cert env fs).2.2) := by
  unfold push_burp_cert
  simp only [ha, ho, hc, Bool.not_true, if_false, Bool.false_eq_true]
  by_cases hder : env.derExit = 0
  · rw [if_neg (by omega)]
    obtain ⟨t, htEq, hpemT, hderT⟩ :=
      certAfterConvert_trace env
        (if (decide (env.derExit = 0) || env.derLeftover) = true
         then fsInsert "temp.pem" fs else fs) [CertStep.derConv]
    rw [htEq]
    refine ⟨by simp, ?_, ?_⟩
    · simp [List.mem_append, hpemT, hder]
    · intro hcontra
      exact absurd hder (by omega)
  · rw [if_pos (by omega)]
    by_cases hpem : env.pemExit = 0
    · rw [if_neg (by omega)]
      obtain ⟨t, htEq, hpemT, hderT⟩ :=
        certAfterConvert_trace env
          (if (decide (env.pemExit = 0) || env.pemLeftover) = true
           then fsInsert "temp.pem"
             (if (decide (env.derExit = 0) || env.derLeftover) = true
              then fsInsert "temp.pem" fs else fs)
           else
             (if (decide (env.derExit = 0) || env.derLeftover) = true
              then fsInsert "temp.pem" fs else fs))
          ([CertStep.derConv] ++ [CertStep.pemConv])
      rw [htEq]
      refine ⟨by simp, by simp [hder], ?_⟩
      intro _ hcontra
      exact absurd hpem (by omega)
    · rw [if_pos (by omega)]
      refine ⟨by simp, by simp [hder], fun _ _ => ⟨rfl, by simp, by simp⟩⟩

/-- C10 witness: with DER failing and the PEM fallback failing, the operation
ends in the exception handler without reaching the hash or push steps. -/
theorem cert_conversion_der_first_witness :
    CertStep.derConv ∈ (push_burp_cert envPemFail []).2.2 ∧
    (CertStep.pemConv ∈ (push_burp_cert envPemFail []).2.2 ↔
      envPemFail.derExit ≠ 0) ∧
    (envPemFail.derExit ≠ 0 → envPemFail.pemExit ≠ 0 →
      (push_burp_cert envPemFail []).2.1 = CertOutcome.errorCaught ∧
      CertStep.hashCmd ∉ (push_burp_cert envPemFail []).2.2 ∧
      CertStep.pushCert ∉ (push_burp_cert envPemFail []).2.2) :=
  cert_conversion_der_first envPemFail [] (by decide) (by decide) (by decide)

/-- C8: when KillPrior (both variants), RelaxMAC and RequestRootChannel all
exit non-zero, the deployment still proceeds to the Launch and Verify steps
and the attempt completes rather than aborting. -/
theorem best_effort_steps_nonfatal (st : SetupState) (ad : Bool)
    (env : DeviceEnv) (h0 : env.getpropExit = 0) (hd : env.downloadOk = true)
    (he : env.extractOk = true) (hp : env.pushExit = 0)
    (_hk1 : env.killSuExit ≠ 0) (_hk2 : env.killExit ≠ 0)
    (_hse : env.setenforceExit ≠ 0) (_hro : env.rootExit ≠ 0) :
    Step.killSu ∈ (setup_frida_server st ad env).2.1 ∧
    Step.killPlain ∈ (setup_frida_server st ad env).2.1 ∧
    Step.setenforce ∈ (setup_frida_server st ad env).2.1 ∧
    Step.rootChannel ∈ (setup_frida_server st ad env).2.1 ∧
    Step.launchSu ∈ (setup_frida_server st ad env).2.1 ∧
    Step.verify ∈ (setup_frida_server st ad env).2.1 ∧
    (setup_frida_server st ad env).2.2 = Outcome.completed := by
  unfold setup_frida_server
  repeat' split
  all_goals simp_all

theorem setup_cfg_eq (st : SetupState) (ad : Bool) (env : DeviceEnv)
    (h : env.getpropExit = 0) :
    (setup_frida_server st ad env).1.cfg = setupCfg st ad env := by
  unfold setup_frida_server setupCfg
  rw [if_neg (by omega)]
  by_cases hd : env.downloadOk <;> by_cases he : env.extractOk <;>
    by_cases hp : env.pushExit = 0 <;> by_cases hl : env.launchSuExit = 0 <;>
    simp [hd, he, hp, hl]

theorem setup_ver_eq (st : SetupState) (ad : Bool) (env : DeviceEnv) :
    (setup_frida_server st ad env).1.cfg.FRIDA_VER = st.cfg.FRIDA_VER := by
  by_cases h : env.getpropExit = 0
  · rw [setup_cfg_eq st ad env h]
    unfold setupCfg
    split <;> rfl
  · unfold setup_frida_server
    rw [if_pos (by omega)]

theorem setup_fs_eq (st : SetupState) (ad : Bool) (env : DeviceEnv)
    (h : env.getpropExit = 0) :
    (setup_frida_server st ad env).1.fs =
      if !env.downloadOk then st.fs
      else if !env.extractOk then
        fsInsert (setupCfg st ad env).LOCAL_XZ st.fs
      else
        fsInsert LOCAL_BIN_path
          (fsInsert (setupCfg st ad env).LOCAL_XZ st.fs) := by
  unfold setup_frida_server setupCfg
  rw [if_neg (by omega)]
  by_cases hd : env.downloadOk <;> by_cases he : env.extractOk <;>
    by_cases hp : env.pushExit = 0 <;> by_cases hl : env.launchSuExit = 0 <;>
    simp [hd, he, hp, hl]

theorem setup_no_raise (st : SetupState) (ad : Bool) (env : DeviceEnv)
    (h : env.getpropExit = 0) :
    (setup_frida_server st ad env).2.2 ≠ Outcome.raisedError := by
  unfold setup_frida_server
  rw [if_neg (by omega)]
  by_cases hd : env.downloadOk <;> by_cases he : env.extractOk <;>
    by_cases hp : env.pushExit = 0 <;> by_cases hl : env.launchSuExit = 0 <;>
    simp [hd, he, hp, hl]

theorem setup_raise_of_getprop_fail (st : SetupState) (ad : Bool)
    (env : DeviceEnv) (h : env.getpropExit ≠ 0) :
    setup_frida_server st ad env = (st, [Step.getprop], Outcome.raisedError) := by
  unfold setup_frida_server
  rw [if_pos h]

/-- C8 witness: the concrete all-best-effort-failing interaction still reaches
Launch and Verify and completes. -/
theorem best_effort_steps_nonfatal_witness :
    Step.killSu ∈ (setup_frida_server stPre false envBestEffortFail).2.1 ∧
    Step.killPlain ∈ (setup_frida_server stPre false envBestEffortFail).2.1 ∧
    Step.setenforce ∈ (setup_frida_server stPre false envBestEffortFail).2.1 ∧
    Step.rootChannel ∈ (setup_frida_server stPre false envBestEffortFail).2.1 ∧
    Step.launchSu ∈ (setup_frida_server stPre false envBestEffortFail).2.1 ∧
    Step.verify ∈ (setup_frida_server stPre false envBestEffortFail).2.1 ∧
    (setup_frida_server stPre false envBestEffortFail).2.2 =
      Outcome.completed :=
  best_effort_steps_nonfatal stPre false envBestEffortFail rfl rfl rfl rfl
    (by decide) (by decide) (by decide) (by decide)

/-- C1 counterexample: with the cache pre-populated for (17.5.2,
android-arm64) — both the compressed and the decompressed file already present
— two successive deployments still invoke the download twice, because the
fetch step (src line 319) never checks whether the target file exists. -/
theorem ensureArtifact_refetch_counterexample :
    cfg0.LOCAL_XZ ∈ stPre.fs ∧ LOCAL_BIN_path ∈ stPre.fs ∧
    ((setup_frida_server stPre false envOk).2.1 ++
      (setup_frida_server (setup_frida_server stPre false envOk).1 false
        envOk).2.1).count Step.download = 2 := by
  refine ⟨by decide, by decide, by decide⟩

/-- C1 amended: the fetch step downloads unconditionally — whenever the ABI
query succeeds, the download is invoked exactly once per deployment, whether
or not the cache already holds the artifact; hence twice across two
deployments. -/
theorem ensureArtifact_always_downloads (st : SetupState) (ad : Bool)
    (env : DeviceEnv) (h : env.getpropExit = 0) :
    ((setup_frida_server st ad env).2.1).count Step.download = 1 := by
  unfold setup_frida_server
  rw [if_neg (by omega)]
  by_cases hd : env.downloadOk <;> by_cases he : env.extractOk <;>
    by_cases hp : env.pushExit = 0 <;> by_cases hl : env.launchSuExit = 0 <;>
    simp [hd, he, hp, hl]

/-- C1 amended witness: one deployment over the pre-populated cache performs
exactly one download. -/
theorem ensureArtifact_always_downloads_witness :
    ((setup_frida_server stPre false envOk).2.1).count Step.download = 1 :=
  ensureArtifact_always_downloads stPre false envOk rfl

/-- C2 counterexample: two devices are selected; on the first, the ABI query
command (run with failOnNonzero=true, src line 290) exits non-zero, the
exception propagates, and the loop aborts — the second device is never
attempted, so a failure on one device can abort the overall loop. -/
theorem device_loop_abort_counterexample :
    ((run_frida_server stPre false [envGetpropFail, envOk]).2.1).length = 1 ∧
    (run_frida_server stPre false [envGetpropFail, envOk]).2.2 = true := by
  exact ⟨rfl, rfl⟩

/-- C2 amended: download, extract and push failures abort only the affected
device and the loop always proceeds to the next selected device; but this
holds only when every device's ABI query succeeds — that query runs with
failOnNonzero=true and its failure aborts the whole loop.  Under that proviso
every selected device is attempted and the loop never aborts. -/
theorem device_loop_continues_when_abi_query_succeeds (st : SetupState)
    (ad : Bool) (envs : List DeviceEnv)
    (h : ∀ e ∈ envs, e.getpropExit = 0) :
    ((run_frida_server st ad envs).2.1).length = envs.length ∧
    (run_frida_server st ad envs).2.2 = false := by
  revert h
  induction envs generalizing st with
  | nil => intro h; exact ⟨rfl, rfl⟩
  | cons env rest ih =>
    intro h
    have h0 : env.getpropExit = 0 := h env (List.mem_cons_self _ _)
    have hr : ∀ e ∈ rest, e.getpropExit = 0 :=
      fun e m => h e (List.mem_cons_of_mem _ m)
    have hnr := setup_no_raise st ad env h0
    obtain ⟨hl, hb⟩ := ih (setup_frida_server st ad env).1 hr
    rcases e : (setup_frida_server st ad env).2.2 with _ | _ | _
    · simp only [run_frida_server, e]
      exact ⟨by simp [hl], hb⟩
    · simp only [run_frida_server, e]
      exact ⟨by simp [hl], hb⟩
    · exact absurd e hnr

/-- C2 amended witness: the first device fails at download (a hard stop for
that device), yet both selected devices are attempted and the loop does not
abort. -/
theorem device_loop_continues_witness :
    ((run_frida_server stPre false [envDownloadFail, envOk]).2.1).length = 2 ∧
    (run_frida_server stPre false [envDownloadFail, envOk]).2.2 = false :=
  device_loop_continues_when_abi_query_succeeds stPre false
    [envDownloadFail, envOk] (by decide)

/-- C3 counterexample: a per-device deployment run in auto-detect mode (the
default when no explicit architecture is given) rewrites the process-wide
FRIDA_ARCH from the device ABI: after deploying to an x86 device the global
architecture is no longer the android-arm64 it was set to at startup. -/
theorem config_mutation_counterexample :
    stPre.cfg.FRIDA_ARCH = "android-arm64" ∧
    (setup_frida_server stPre true envX86).1.cfg.FRIDA_ARCH = "android-x86" := by
  exact ⟨rfl, rfl⟩

/-- C3 amended: the configuration is read-only across per-device deployments
only when auto-detect is off; with auto-detect on, each deployment rewrites
FRIDA_ARCH (and the derived FRIDA_URL and LOCAL_XZ) from the device ABI. -/
theorem config_readonly_without_autodetect :
    (∀ (st : SetupState) (env : DeviceEnv),
      (setup_frida_server st false env).1.cfg = st.cfg) ∧
    (∀ (st : SetupState) (env : DeviceEnv), env.getpropExit = 0 →
      (setup_frida_server st true env).1.cfg = setupCfg st true env ∧
      (setup_frida_server st true env).1.cfg.FRIDA_ARCH =
        map_abi_to_frida_arch env.abi) := by
  constructor
  · intro st env
    by_cases h : env.getpropExit = 0
    · rw [setup_cfg_eq st false env h]
      rfl
    · rw [setup_raise_of_getprop_fail st false env h]
  · intro st env h
    refine ⟨setup_cfg_eq st true env h, ?_⟩
    rw [setup_cfg_eq st true env h]
    rfl

/-- C3 amended witness: a no-auto-detect deployment leaves the configuration
unchanged, while an auto-detect deployment on an x86 device rewrites the
architecture. -/
theorem config_readonly_without_autodetect_witness :
    (setup_frida_server stPre false envOk).1.cfg = stPre.cfg ∧
    (setup_frida_server stPre true envX86).1.cfg.FRIDA_ARCH =
      map_abi_to_frida_arch envX86.abi :=
  ⟨config_readonly_without_autodetect.1 stPre envOk,
   (config_readonly_without_autodetect.2 stPre envX86 rfl).2⟩

/-- C5 counterexample: two distinct (version, architecture) pairs share one
and the same decompressed cache path, because the code writes every
decompressed artifact to the constant LOCAL_BIN (src lines 34, 328) — so
distinct pairs do not map to distinct cache paths for the decompressed
form. -/
theorem cache_path_collision_counterexample :
    (("17.5.2", "android-arm64") : String × String) ≠ ("16.0.0", "android-x86") ∧
    localBinPath "17.5.2" "android-arm64" =
      localBinPath "16.0.0" "android-x86" := by
  exact ⟨by decide, rfl⟩

/-- C5 amended: each (version, architecture) pair maps to exactly one URL and
one compressed cache path, and distinct pairs with valid versions map to
distinct URLs and distinct compressed paths; the decompressed form however is
cached at the single constant path shared by all pairs; re-fetching a pair
overwrites the cache entries rather than appending new ones (the set of cache
files is unchanged by a repeated deployment). -/
theorem cache_keying_amended :
    (∀ v1 a1 v2 a2 : String, validate_frida_version v1 = true →
      validate_frida_version v2 = true → (v1, a1) ≠ (v2, a2) →
      localXzPath v1 a1 ≠ localXzPath v2 a2 ∧
      fridaUrl v1 a1 ≠ fridaUrl v2 a2) ∧
    (∀ v a : String, localBinPath v a = LOCAL_BIN_path) ∧
    (∀ (st : SetupState) (ad : Bool) (env : DeviceEnv),
      (setup_frida_server (setup_frida_server st ad env).1 ad env).1.fs =
        (setup_frida_server st ad env).1.fs) := by
  refine ⟨?_, fun v a => rfl, ?_⟩
  · intro v1 a1 v2 a2 h1 h2 hne
    constructor
    · intro he
      obtain ⟨hv, ha⟩ := localXzPath_inj h1 h2 he
      exact hne (by rw [hv, ha])
    · intro he
      obtain ⟨hv, ha⟩ := fridaUrl_inj h1 h2 he
      exact hne (by rw [hv, ha])
  · intro st ad env
    by_cases hg : env.getpropExit = 0
    · have hcfg_same :
          setupCfg (setup_frida_server st ad env).1 ad env =
            setupCfg st ad env := by
        cases ad
        · show (setup_frida_server st false env).1.cfg = setupCfg st false env
          exact setup_cfg_eq st false env hg
        · show ({ (setup_frida_server st true env).1.cfg with
              FRIDA_ARCH := map_abi_to_frida_arch env.abi,
              FRIDA_URL := fridaUrl
                (setup_frida_server st true env).1.cfg.FRIDA_VER
                (map_abi_to_frida_arch env.abi),
              LOCAL_XZ := localXzPath
                (setup_frida_server st true env).1.cfg.FRIDA_VER
                (map_abi_to_frida_arch env.abi) } : Config) =
            setupCfg st true env
          rw [setup_cfg_eq st true env hg]
          rfl
      rw [setup_fs_eq (setup_frida_server st ad env).1 ad env hg, hcfg_same,
        setup_fs_eq st ad env hg]
      by_cases hd : env.downloadOk
      · by_cases he : env.extractOk
        · simp only [hd, he, Bool.not_true, Bool.false_eq_true, if_false]
          have hK : (setupCfg st ad env).LOCAL_XZ ∈
              fsInsert LOCAL_BIN_path
                (fsInsert (setupCfg st ad env).LOCAL_XZ st.fs) :=
            (mem_fsInsert _ _ _).2 (Or.inr (mem_fsInsert_self _ _))
          rw [fsInsert_of_mem hK, fsInsert_of_mem (mem_fsInsert_self _ _)]
        · simp only [hd, he, Bool.not_true, Bool.not_false, if_true,
            Bool.false_eq_true, if_false]
          rw [fsInsert_of_mem (mem_fsInsert_self _ _)]
      · simp only [hd, Bool.not_false, if_true]
    · rw [setup_raise_of_getprop_fail st ad env hg]
      show (setup_frida_server st ad env).1.fs = st.fs
      rw [setup_raise_of_getprop_fail st ad env hg]

/-- C5 amended witness: (17.5.2, android-arm64) and (16.0.0, android-x86) get
distinct URLs and compressed paths but the same decompressed path, and a
repeated deployment leaves the cache file set unchanged. -/
theorem cache_keying_amended_witness :
    (localXzPath "17.5.2" "android-arm64" ≠
        localXzPath "16.0.0" "android-x86" ∧
      fridaUrl "17.5.2" "android-arm64" ≠ fridaUrl "16.0.0" "android-x86") ∧
    localBinPath "17.5.2" "android-arm64" = LOCAL_BIN_path ∧
    (setup_frida_server (setup_frida_server stPre false envOk).1 false
        envOk).1.fs =
      (setup_frida_server stPre false envOk).1.fs :=
  ⟨cache_keying_amended.1 "17.5.2" "android-arm64" "16.0.0" "android-x86"
      (by decide) (by decide) (by decide),
   cache_keying_amended.2.1 "17.5.2" "android-arm64",
   cache_keying_amended.2.2 stPre false envOk⟩

end AndroidTools
